import Mathlib

/-!
Verification development for the thermal-analysis orchestration engine
(worker agent `ThermalAnalysisAgent`, file `worker/agents/thermal-analysis.ts`).

The agent's durable state and its externally callable operations are embedded
shallowly: each TypeScript method that mutates `this.state` via `setState`
becomes a pure function on an explicit state record; methods that `throw`
become `Except String`-valued functions (a throw happens before any state
mutation, so an error leaves the state untouched).  Ambient values the code
reads (wall-clock time strings, `Date.now()` timestamps, randomly generated
approval ids, model responses) are passed as explicit parameters.
-/

namespace ThermalWise

/-- A JavaScript number as used for parsed coordinates: either NaN (what
`parseFloat` returns on unparseable input) or an ordinary numeric value,
modelled as a rational. -/
inductive JsNum where
  | nan : JsNum
  | num (q : ℚ) : JsNum
deriving DecidableEq

/-- Enumeration `PendingApproval.type` in the source. -/
inductive ApprovalType where
  | start_analysis
  | anomaly_detection
  | generate_report
  | expensive_operation
deriving DecidableEq

/-- Source `interface PendingApproval`.  The open-ended `context` map
(`Record<string, unknown>`) is embedded as a list of key/value string pairs;
none of the verified properties inspect its contents. -/
structure PendingApproval where
  id : String
  type_ : ApprovalType
  title : String
  description : String
  context : List (String × String)
  timestamp : ℕ
deriving DecidableEq

/-- Source `interface ApprovalDecision`. -/
structure ApprovalDecision where
  approvalId : String
  approved : Bool
  reason : Option String
deriving DecidableEq

/-- Severity enumeration of `ThermalAnomaly.severity`. -/
inductive Severity where
  | minor
  | moderate
  | severe
deriving DecidableEq

/-- Repair-priority enumeration of `ThermalAnomaly.repairPriority`. -/
inductive Priority where
  | low
  | medium
  | high
  | immediate
deriving DecidableEq

/-- Source `interface ThermalAnomaly`.  `confidence` is a number in [0,1] in the
source schema; it is embedded as a rational. -/
structure ThermalAnomaly where
  id : String
  location : String
  severity : Severity
  description : String
  temperatureDifferential : String
  probableCause : String
  coordinates : List JsNum
  estimatedEnergyLoss : String
  repairCost : String
  repairPriority : Priority
  confidence : ℚ
deriving DecidableEq

/-- Source `interface ImagePair`. -/
structure ImagePair where
  id : String
  rgbUrl : String
  thermalUrl : String
  label : String
deriving DecidableEq

/-- Enumeration `BuildingInfo.buildingType`. -/
inductive BuildingType where
  | Residential
  | Commercial
  | Industrial
deriving DecidableEq

/-- Source `interface BuildingInfo`. -/
structure BuildingInfo where
  buildingName : String
  location : String
  buildingId : String
  constructionYear : ℤ
  buildingType : BuildingType
  inspector : String
  inspectionDate : String
  inspectionTime : String
  outsideTemp : String
  notes : Option String
deriving DecidableEq

/-- Enumeration `AnalysisState.status`. -/
inductive Status where
  | idle
  | analyzing
  | awaiting_approval
  | completed
  | error
  | stopped
deriving DecidableEq

/-- Enumeration `AnalysisState.energyRating`, letters A through G. -/
inductive EnergyRating where
  | A
  | B
  | C
  | D
  | E
  | F
  | G
deriving DecidableEq

/-- Rendering of an energy rating, as interpolated into log strings. -/
def ratingStr : EnergyRating → String
  | .A => "A"
  | .B => "B"
  | .C => "C"
  | .D => "D"
  | .E => "E"
  | .F => "F"
  | .G => "G"

/-- Source `interface AnalysisState`.  JavaScript `number` progress is embedded as a
rational (all values the code stores are exact decimals/fractions). -/
structure AnalysisState where
  status : Status
  progress : ℚ
  currentImagePair : Option ℕ
  totalImagePairs : Option ℕ
  analysisLog : List String
  detectedAnomalies : List ThermalAnomaly
  finalReport : Option String
  energyRating : Option EnergyRating
  error : Option String
  pendingApprovals : List PendingApproval
  approvalHistory : List ApprovalDecision
deriving DecidableEq

/-- Source `interface ThermalAnalysisState` — the agent's durable state. -/
structure ThermalAnalysisState where
  buildingInfo : Option BuildingInfo
  imagePairs : List ImagePair
  analysisState : AnalysisState
deriving DecidableEq

/-- The full in-memory state of a `ThermalAnalysisAgent` instance: the durable
`ThermalAnalysisState` plus the private `shouldStopAnalysis` flag. -/
structure AgentState where
  state : ThermalAnalysisState
  shouldStopAnalysis : Bool
deriving DecidableEq

/-- Field `initialState` of the agent class. -/
def initialAgentState : AgentState :=
  { state :=
      { buildingInfo := none
        imagePairs := []
        analysisState :=
          { status := .idle
            progress := 0
            currentImagePair := none
            totalImagePairs := none
            analysisLog := []
            detectedAnomalies := []
            finalReport := none
            energyRating := none
            error := none
            pendingApprovals := []
            approvalHistory := [] } }
    shouldStopAnalysis := false }

/-! ## State-mutating helpers of the agent -/

/-- Method `updateProgress(progress, message)`: stores the given progress value and
appends a timestamped log line.  The wall-clock string produced by
`new Date().toLocaleTimeString()` is passed in as `timeStamp`. -/
def updateProgress (progress : ℚ) (timeStamp message : String) (a : AgentState) : AgentState :=
  let cur := a.state.analysisState
  { a with state := { a.state with analysisState :=
      { cur with
        progress := progress
        analysisLog := cur.analysisLog ++ ["[" ++ timeStamp ++ "] " ++ message] } } }

/-- Method `resetAnalysisState()`: replaces the analysis state by a fresh idle one,
clearing every transient field; building info and image pairs are untouched. -/
def resetAnalysisState (a : AgentState) : AgentState :=
  { a with state := { a.state with analysisState :=
      { status := .idle
        progress := 0
        currentImagePair := none
        totalImagePairs := none
        analysisLog := []
        detectedAnomalies := []
        finalReport := none
        energyRating := none
        error := none
        pendingApprovals := []
        approvalHistory := [] } } }

/-- Log line appended when `requestApproval` publishes a pending approval. -/
def waitingLogLine (title : String) : String :=
  "⏸️ Waiting for approval: " ++ title

/-- First half of `requestApproval`: build the `PendingApproval`, append it to
the pending set, set status to `awaiting_approval` and log the wait.  The
generated `approvalId` and the `Date.now()` timestamp are parameters. -/
def requestApprovalEnter (approvalId : String) (ty : ApprovalType)
    (title description : String) (context : List (String × String)) (now : ℕ)
    (a : AgentState) : AgentState :=
  let cur := a.state.analysisState
  { a with state := { a.state with analysisState :=
      { cur with
        status := .awaiting_approval
        pendingApprovals := cur.pendingApprovals ++
          [{ id := approvalId, type_ := ty, title := title,
             description := description, context := context, timestamp := now }]
        analysisLog := cur.analysisLog ++ [waitingLogLine title] } } }

/-- Log line appended by the gate when a decision is consumed:
`✅/❌ title: Approved/Denied[ - reason]`. -/
def decisionLogLine (title : String) (d : ApprovalDecision) : String :=
  (if d.approved then "✅" else "❌") ++ " " ++ title ++ ": " ++
    (if d.approved then "Approved" else "Denied") ++
    (match d.reason with
     | some r => " - " ++ r
     | none => "")

/-- Outcome of one iteration of the gate's polling closure `checkApproval`. -/
inductive GateCheck where
  | resolved (approved : Bool) (a : AgentState)
  | keepWaiting
deriving DecidableEq

/-- One iteration of the `checkApproval` polling closure inside
`requestApproval`: if a decision for `approvalId` is in history, remove the
pending entry, set status to `analyzing` when approved and `idle` when denied,
log the outcome and resolve with the decision's `approved` flag; otherwise if
the stop flag is set, remove the pending entry, set status to `stopped` and
resolve `false`; otherwise keep polling. -/
def checkApproval (approvalId title : String) (a : AgentState) : GateCheck :=
  let st := a.state.analysisState
  match st.approvalHistory.find? (fun d => d.approvalId == approvalId) with
  | some decision =>
      .resolved decision.approved
        { a with state := { a.state with analysisState :=
            { st with
              status := if decision.approved then .analyzing else .idle
              pendingApprovals := st.pendingApprovals.filter (fun p => p.id != approvalId)
              analysisLog := st.analysisLog ++ [decisionLogLine title decision] } } }
  | none =>
      if a.shouldStopAnalysis then
        .resolved false
          { a with state := { a.state with analysisState :=
              { st with
                status := .stopped
                pendingApprovals := st.pendingApprovals.filter (fun p => p.id != approvalId) } } }
      else .keepWaiting

/-! ## Command surface -/

/-- Callable `initializeAnalysis(buildingInfo, imagePairs)`: stores building info and
image pairs and resets the analysis state to idle with one initial log line. -/
def initializeAnalysis (buildingInfo : BuildingInfo) (imagePairs : List ImagePair)
    (a : AgentState) : AgentState :=
  { a with state :=
      { buildingInfo := some buildingInfo
        imagePairs := imagePairs
        analysisState :=
          { status := .idle
            progress := 0
            currentImagePair := none
            totalImagePairs := none
            analysisLog := ["Initialized analysis for " ++ buildingInfo.buildingName]
            detectedAnomalies := []
            finalReport := none
            energyRating := none
            error := none
            pendingApprovals := []
            approvalHistory := [] } } }

/-- The precondition check at the top of `startAnalysis` (and
`startComplexAnalysis`): `!this.state.buildingInfo || this.state.imagePairs.length === 0`. -/
def startPreconditionFails (a : AgentState) : Bool :=
  a.state.buildingInfo.isNone || a.state.imagePairs.isEmpty

/-- The synchronous prefix of `startAnalysis()` up to launching the model
stream: throw if building info is missing or there are no image pairs
(before any state mutation); otherwise clear the stop flag, reset the
analysis state, enter `analyzing` with `totalImagePairs` set and a start log
line, and store the initial 5% progress.  Note there is no check of the
current status: a start issued while a run is active also takes this path. -/
def startAnalysisEntry (timeStamp : String) (a : AgentState) : Except String AgentState :=
  if startPreconditionFails a then
    .error "Building info and image pairs must be provided"
  else
    let a₁ := resetAnalysisState { a with shouldStopAnalysis := false }
    let st := a₁.state.analysisState
    let a₂ := { a₁ with state := { a₁.state with analysisState :=
        { st with
          status := .analyzing
          totalImagePairs := some a₁.state.imagePairs.length
          analysisLog := st.analysisLog ++ ["Starting AI-powered thermal analysis..."] } } }
    .ok (updateProgress 5 timeStamp "Initializing AI analysis engine..." a₂)

/-- The synchronous prefix of `startComplexAnalysis()` (the automated variant
without approvals); identical to `startAnalysisEntry` except for the start
log line, which replaces the log instead of appending. -/
def startComplexAnalysisEntry (timeStamp : String) (a : AgentState) : Except String AgentState :=
  if startPreconditionFails a then
    .error "Building info and image pairs must be provided"
  else
    let a₁ := resetAnalysisState { a with shouldStopAnalysis := false }
    let st := a₁.state.analysisState
    let a₂ := { a₁ with state := { a₁.state with analysisState :=
        { st with
          status := .analyzing
          totalImagePairs := some a₁.state.imagePairs.length
          analysisLog := ["Starting AI-powered thermal analysis (automated)..."] } } }
    .ok (updateProgress 5 timeStamp "Initializing AI analysis engine..." a₂)

/-- Callable `stopAnalysis()`: sets the stop flag, marks the status `stopped` and
appends one log line; every other field is carried over by the spread. -/
def stopAnalysis (a : AgentState) : AgentState :=
  let a₁ := { a with shouldStopAnalysis := true }
  let cur := a₁.state.analysisState
  { a₁ with state := { a₁.state with analysisState :=
      { cur with
        status := .stopped
        analysisLog := cur.analysisLog ++ ["⏹️ Analysis stopped by user"] } } }

/-- Callable `restartAnalysis()`: replaces the analysis state by a fresh idle one with
a single restart log line; building info and image pairs are kept. -/
def restartAnalysis (a : AgentState) : AgentState :=
  { a with state := { a.state with analysisState :=
      { status := .idle
        progress := 0
        currentImagePair := none
        totalImagePairs := none
        analysisLog := ["Analysis restarted - ready to begin"]
        detectedAnomalies := []
        finalReport := none
        energyRating := none
        error := none
        pendingApprovals := []
        approvalHistory := [] } } }

/-- Callable `provideApproval(decision)`: throws a not-found error when no pending
approval carries the decision's `approvalId` (before any mutation), otherwise
appends the decision to the approval history. -/
def provideApproval (decision : ApprovalDecision) (a : AgentState) : Except String AgentState :=
  let cur := a.state.analysisState
  match cur.pendingApprovals.find? (fun p => p.id == decision.approvalId) with
  | none =>
      .error ("Approval " ++ decision.approvalId ++ " not found or already processed")
  | some _ =>
      .ok { a with state := { a.state with analysisState :=
          { cur with approvalHistory := cur.approvalHistory ++ [decision] } } }

/-- Callable `clearApprovals()`: empties both the pending set and the history. -/
def clearApprovals (a : AgentState) : AgentState :=
  let cur := a.state.analysisState
  { a with state := { a.state with analysisState :=
      { cur with
        pendingApprovals := []
        approvalHistory := [] } } }

/-- Runs a throwing command against the agent: a JavaScript `throw` before any
`setState` leaves the Durable Object state exactly as it was. -/
def stepOrKeep (f : AgentState → Except String AgentState) (a : AgentState) : AgentState :=
  match f a with
  | .ok b => b
  | .error _ => a

/-- The externally invokable state-mutating operations of the command surface
(the read-only getters return fields of the state without mutating it and are
not represented). -/
inductive Command where
  | initializeCmd (b : BuildingInfo) (ps : List ImagePair)
  | startCmd (timeStamp : String)
  | startComplexCmd (timeStamp : String)
  | stopCmd
  | restartCmd
  | provideApprovalCmd (d : ApprovalDecision)
  | clearApprovalsCmd
deriving DecidableEq

/-- Effect of one command-surface invocation on the agent state (throwing
commands leave the state unchanged on error). -/
def applyCommand : Command → AgentState → AgentState
  | .initializeCmd b ps => initializeAnalysis b ps
  | .startCmd ts => stepOrKeep (startAnalysisEntry ts)
  | .startComplexCmd ts => stepOrKeep (startComplexAnalysisEntry ts)
  | .stopCmd => stopAnalysis
  | .restartCmd => restartAnalysis
  | .provideApprovalCmd d => stepOrKeep (provideApproval d)
  | .clearApprovalsCmd => clearApprovals

/-! ## Orchestrator checkpoint handlers inside `startAnalysis` -/

/-- The denial branch after the `anomaly_detection` checkpoint
(`if (!continueAfterCritical)` in `startAnalysis`): set the stop flag, force
status `stopped` with progress 70, log the halt via `updateProgress(70, ...)`,
and `return` from the run — no further image pairs are processed. -/
def criticalDeniedHandler (timeStamp : String) (a : AgentState) : AgentState :=
  let a₁ := { a with shouldStopAnalysis := true }
  let st := a₁.state.analysisState
  let a₂ := { a₁ with state := { a₁.state with analysisState :=
      { st with
        status := .stopped
        progress := 70 } } }
  updateProgress 70 timeStamp "Analysis stopped after critical anomaly detection" a₂

/-- Resolution of the `anomaly_detection` checkpoint: one polling iteration of
the gate followed by the branch of `startAnalysis` on the returned flag.
`keepWaiting` models the `setTimeout` re-poll: the orchestrator has not
resumed, so the state is unchanged. -/
def anomalyCheckpointResolve (approvalId timeStamp : String) (a : AgentState) : AgentState :=
  match checkApproval approvalId "Critical Thermal Issues Found" a with
  | .resolved approved a₁ =>
      if approved then
        updateProgress a₁.state.analysisState.progress timeStamp
          "Continuing analysis after approval..." a₁
      else criticalDeniedHandler timeStamp a₁
  | .keepWaiting => a

/-- The completion block at the end of `startAnalysis` (taken whenever the
stop flag is unset): mark the run `completed` at progress 100 and append the
completion log lines.  `fullResponse` is the accumulated model text. -/
def markCompleted (fullResponse : String) (a : AgentState) : AgentState :=
  let st := a.state.analysisState
  { a with state := { a.state with analysisState :=
      { st with
        status := .completed
        progress := 100
        analysisLog := st.analysisLog ++
          ["✅ Thermal analysis completed successfully!",
           "📊 Found " ++ toString st.detectedAnomalies.length ++ " thermal anomalies",
           "⚡ Energy rating: " ++
             (match st.energyRating with
              | some r => ratingStr r
              | none => "Calculating..."),
           "📝 Analysis summary: " ++ fullResponse.take 200 ++ "...",
           if st.detectedAnomalies.length > 0 then "📋 Analysis completed with findings"
           else "📋 Analysis completed - no issues found"] } } }

/-- The tail of `startAnalysis` after the `generate_report` gate returned:
log 85% "completed without detailed report" on denial or 90% "generating" on
approval, then mark the run completed either way. -/
def afterReportDecision (approved : Bool) (timeStamp fullResponse : String)
    (a : AgentState) : AgentState :=
  let a₁ :=
    if approved then updateProgress 90 timeStamp "Generating comprehensive report..." a
    else updateProgress 85 timeStamp "Analysis completed without detailed report" a
  markCompleted fullResponse a₁

/-- Resolution of the `generate_report` checkpoint: one polling iteration of
the gate followed by the completion tail of `startAnalysis`. -/
def reportCheckpointResolve (approvalId timeStamp fullResponse : String)
    (a : AgentState) : AgentState :=
  match checkApproval approvalId "Generate Comprehensive Report" a with
  | .resolved approved a₁ => afterReportDecision approved timeStamp fullResponse a₁
  | .keepWaiting => a

/-! ## Progress writes of a run

`startAnalysis` stores progress from a fixed set of call sites.  The stream of
model steps is external input, so the values written during a run are modelled
as a function of a script of run events. -/

/-- Expression `Math.min(20, imagePairs.length + 5)`: the `maxSteps` bound of the
human-in-the-loop run, also the denominator of the per-step progress. -/
def maxStepsHuman (numPairs : ℕ) : ℕ :=
  min 20 (numPairs + 5)

/-- Expression `baseProgress = 10 + (stepNumber * 70) / Math.min(20, imagePairs.length + 5)`
computed in `onStepFinish`, where `stepNumber` is the number of tool calls of
the step that just finished. -/
def stepBaseProgress (numPairs stepToolCalls : ℕ) : ℚ :=
  10 + (stepToolCalls * 70 : ℚ) / (maxStepsHuman numPairs : ℚ)

/-- The progress value stored by `onStepFinish`:
`Math.min(baseProgress, 85)`. -/
def stepStoredProgress (numPairs stepToolCalls : ℕ) : ℚ :=
  min (stepBaseProgress numPairs stepToolCalls) 85

/-- Progress-writing events of one `startAnalysis` run, in the order they can
occur.  `stepFinish toolCalls extraLogs` is one `onStepFinish` callback: one
capped write from the step's tool-call count followed by `extraLogs`
re-writes of the (now current) value for tool-call/tool-result log lines.
The remaining constructors are the checkpoint branches and the completion
block. -/
inductive ProgressEvent where
  | stepFinish (toolCalls extraLogs : ℕ)
  | criticalDenied
  | criticalApproved
  | reportDenied
  | reportApproved
  | runCompleted
deriving DecidableEq

/-- Progress values written by one event, given the current progress `cur`. -/
def eventWrites (numPairs : ℕ) (cur : ℚ) : ProgressEvent → List ℚ
  | .stepFinish toolCalls extraLogs =>
      List.replicate (extraLogs + 1) (stepStoredProgress numPairs toolCalls)
  | .criticalDenied => [70, 70]
  | .criticalApproved => [cur]
  | .reportDenied => [85]
  | .reportApproved => [90]
  | .runCompleted => [100]

/-- Progress values written by a list of events, threading the current value. -/
def runWrites (numPairs : ℕ) : ℚ → List ProgressEvent → List ℚ
  | _, [] => []
  | cur, e :: es =>
      let ws := eventWrites numPairs cur e
      ws ++ runWrites numPairs (ws.getLastD cur) es

/-- All progress values stored during one run: the 0 written by
`resetAnalysisState`, the initial `updateProgress(5, ...)`, then the writes of
the run's events. -/
def runProgressTrace (numPairs : ℕ) (events : List ProgressEvent) : List ℚ :=
  0 :: 5 :: runWrites numPairs 5 events

/-! ## Coordinate parsing

`parseCoordinates` wraps `coordText.split(",").map(n => parseFloat(n.trim()))`
in `try/catch` with a `[0, 0, 1, 1]` fallback in the `catch`.  None of
`split`, `map`, `trim` or `parseFloat` can throw in JavaScript — `parseFloat`
returns `NaN` on unparseable input — so the `catch` arm is unreachable and the
embedding is the `try` body.  Strings are embedded as character lists here so
that the parser is structurally recursive. -/

/-- The whitespace characters relevant to `String.prototype.trim` and
`parseFloat` leading-space skipping (space, tab, newline, carriage return). -/
def isJsWhitespace (c : Char) : Bool :=
  c = ' ' || c = '\t' || c = '\n' || c = '\r'

/-- JavaScript `s.trim()`: strip leading and trailing whitespace. -/
def jsTrim (s : List Char) : List Char :=
  ((s.dropWhile isJsWhitespace).reverse.dropWhile isJsWhitespace).reverse

/-- JavaScript `s.split(",")`: split at every comma; adjacent commas yield empty pieces. -/
def splitOnComma : List Char → List (List Char)
  | [] => [[]]
  | c :: rest =>
      if c = ',' then [] :: splitOnComma rest
      else
        match splitOnComma rest with
        | [] => [[c]]
        | g :: gs => (c :: g) :: gs

/-- Numeric value of a digit string (most significant first). -/
def digitsToNat (ds : List Char) : ℕ :=
  ds.foldl (fun acc c => 10 * acc + (c.toNat - 48)) 0

/-- JavaScript `parseFloat`, modelled for inputs made of optional leading
whitespace, an optional sign, decimal digits and an optional fraction; it
parses the longest such prefix and returns `NaN` when no digit is found
(exponents and `Infinity` literals are not modelled — no caller produces
them).  It never throws. -/
def jsParseFloat (s : List Char) : JsNum :=
  let t := s.dropWhile isJsWhitespace
  let signAndRest : ℚ × List Char :=
    match t with
    | '-' :: r => (-1, r)
    | '+' :: r => (1, r)
    | _ => (1, t)
  let sign := signAndRest.1
  let t₁ := signAndRest.2
  let intDigits := t₁.takeWhile Char.isDigit
  let afterInt := t₁.dropWhile Char.isDigit
  let fracDigits :=
    match afterInt with
    | '.' :: r => r.takeWhile Char.isDigit
    | _ => []
  if intDigits.isEmpty && fracDigits.isEmpty then JsNum.nan
  else
    JsNum.num (sign * ((digitsToNat intDigits : ℚ) +
      (digitsToNat fracDigits : ℚ) / (10 ^ fracDigits.length : ℚ)))

/-- Function `parseCoordinates(coordText)`: split on commas, trim each piece and parse
it with `parseFloat`.  The `try`-body cannot throw, so the `[0, 0, 1, 1]`
fallback of the `catch` arm never executes. -/
def parseCoordinates (coordText : List Char) : List JsNum :=
  (splitOnComma coordText).map (fun n => jsParseFloat (jsTrim n))

/-! ## Concrete fixtures used by witnesses and counterexamples -/

/-- A concrete building record. -/
def sampleBuilding : BuildingInfo :=
  { buildingName := "Main Office"
    location := "Berlin"
    buildingId := "B-001"
    constructionYear := 1985
    buildingType := .Commercial
    inspector := "J. Doe"
    inspectionDate := "2025-01-15"
    inspectionTime := "09:00"
    outsideTemp := "4"
    notes := none }

/-- A concrete image pair. -/
def samplePair : ImagePair :=
  { id := "p1", rgbUrl := "rgb1", thermalUrl := "th1", label := "Front Wall" }

/-- Status carried by a resolved gate check. -/
def gateStatus : GateCheck → Option Status
  | .resolved _ s => some s.state.analysisState.status
  | .keepWaiting => none

/-- Approved flag carried by a resolved gate check. -/
def gateFlag : GateCheck → Option Bool
  | .resolved approved _ => some approved
  | .keepWaiting => none

/-- Whether a throwing command returned normally. -/
def exceptIsOk : Except String AgentState → Bool
  | .ok _ => true
  | .error _ => false

/-- A session awaiting the `anomaly_detection` checkpoint gate `crit1` whose
decision history holds a denial of `crit1`. -/
def critDenyState : AgentState :=
  { state :=
      { buildingInfo := some sampleBuilding
        imagePairs := [samplePair]
        analysisState :=
          { status := .awaiting_approval
            progress := 40
            currentImagePair := none
            totalImagePairs := some 1
            analysisLog := []
            detectedAnomalies := []
            finalReport := none
            energyRating := none
            error := none
            pendingApprovals :=
              [{ id := "crit1", type_ := .anomaly_detection,
                 title := "Critical Thermal Issues Found", description := "d",
                 context := [], timestamp := 0 }]
            approvalHistory := [{ approvalId := "crit1", approved := false, reason := some "halt" }] } }
    shouldStopAnalysis := false }

/-- A session awaiting the `generate_report` checkpoint gate `g1` whose
decision history holds a denial of `g1`. -/
def reportDenyState : AgentState :=
  { state :=
      { buildingInfo := some sampleBuilding
        imagePairs := [samplePair]
        analysisState :=
          { status := .awaiting_approval
            progress := 40
            currentImagePair := none
            totalImagePairs := some 1
            analysisLog := []
            detectedAnomalies := []
            finalReport := none
            energyRating := none
            error := none
            pendingApprovals :=
              [{ id := "g1", type_ := .generate_report,
                 title := "Generate Comprehensive Report", description := "d",
                 context := [], timestamp := 0 }]
            approvalHistory := [{ approvalId := "g1", approved := false, reason := none }] } }
    shouldStopAnalysis := false }

/-- A session awaiting gate `a1` with an approval of `a1` recorded. -/
def gateApproveState : AgentState :=
  { state :=
      { buildingInfo := some sampleBuilding
        imagePairs := [samplePair]
        analysisState :=
          { status := .awaiting_approval
            progress := 40
            currentImagePair := none
            totalImagePairs := some 1
            analysisLog := []
            detectedAnomalies := []
            finalReport := none
            energyRating := none
            error := none
            pendingApprovals :=
              [{ id := "a1", type_ := .anomaly_detection, title := "T",
                 description := "d", context := [], timestamp := 0 }]
            approvalHistory := [{ approvalId := "a1", approved := true, reason := some "ok" }] } }
    shouldStopAnalysis := false }

/-- A session awaiting gate `a2` with a denial of `a2` recorded. -/
def gateDenyState : AgentState :=
  { state :=
      { buildingInfo := some sampleBuilding
        imagePairs := [samplePair]
        analysisState :=
          { status := .awaiting_approval
            progress := 40
            currentImagePair := none
            totalImagePairs := some 1
            analysisLog := []
            detectedAnomalies := []
            finalReport := none
            energyRating := none
            error := none
            pendingApprovals :=
              [{ id := "a2", type_ := .anomaly_detection, title := "T",
                 description := "d", context := [], timestamp := 0 }]
            approvalHistory := [{ approvalId := "a2", approved := false, reason := none }] } }
    shouldStopAnalysis := false }

/-- A session in status `analyzing` with valid preconditions and a non-empty
decision history. -/
def reentrantState : AgentState :=
  { state :=
      { buildingInfo := some sampleBuilding
        imagePairs := [samplePair]
        analysisState :=
          { status := .analyzing
            progress := 40
            currentImagePair := none
            totalImagePairs := some 1
            analysisLog := []
            detectedAnomalies := []
            finalReport := none
            energyRating := none
            error := none
            pendingApprovals := []
            approvalHistory := [{ approvalId := "x", approved := true, reason := none }] } }
    shouldStopAnalysis := false }

/-! ## Theorems -/

/-- Claim C1 (amended): denying the `anomaly_detection` checkpoint makes the
orchestrator set the stop flag and force status `stopped` with progress set to
the constant 70; no further image pairs are processed (the handler returns
from the run).  The gate itself sets status `idle` on a denial, and the
`generate_report` checkpoint reaches `completed`, not `stopped`, on a denial
(see the counterexample). -/
theorem C1_anomaly_denial_stops (a : AgentState) (approvalId ts : String)
    (d : ApprovalDecision)
    (hfind : a.state.analysisState.approvalHistory.find?
        (fun x => x.approvalId == approvalId) = some d)
    (hden : d.approved = false) :
    (anomalyCheckpointResolve approvalId ts a).state.analysisState.status = .stopped ∧
    (anomalyCheckpointResolve approvalId ts a).state.analysisState.progress = 70 ∧
    (anomalyCheckpointResolve approvalId ts a).shouldStopAnalysis = true := by
  simp [anomalyCheckpointResolve, checkApproval, hfind, hden, criticalDeniedHandler,
    updateProgress]

/-- Witness for C1 at a concrete denied `anomaly_detection` gate. -/
theorem C1_anomaly_denial_stops_witness :
    critDenyState.state.analysisState.approvalHistory.find?
        (fun x => x.approvalId == "crit1") =
      some { approvalId := "crit1", approved := false, reason := some "halt" } ∧
    ((anomalyCheckpointResolve "crit1" "t" critDenyState).state.analysisState.status =
        .stopped ∧
      (anomalyCheckpointResolve "crit1" "t" critDenyState).state.analysisState.progress = 70 ∧
      (anomalyCheckpointResolve "crit1" "t" critDenyState).shouldStopAnalysis = true) :=
  ⟨by decide,
   C1_anomaly_denial_stops critDenyState "crit1" "t"
     { approvalId := "crit1", approved := false, reason := some "halt" } (by decide) rfl⟩

/-- Counterexample to C1 as stated: a decision with `approved = false` for the
`generate_report` checkpoint, recorded while the session is
`awaiting_approval`, leads to status `completed`, not `stopped`. -/
theorem C1_counterexample :
    reportDenyState.state.analysisState.status = .awaiting_approval ∧
    reportDenyState.state.analysisState.approvalHistory.find?
        (fun x => x.approvalId == "g1") =
      some { approvalId := "g1", approved := false, reason := none } ∧
    (reportCheckpointResolve "g1" "t" "resp" reportDenyState).state.analysisState.status =
      .completed ∧
    Status.completed ≠ Status.stopped := by
  refine ⟨rfl, by decide, ?_, by decide⟩
  rfl

/-- Claim C2 (amended): when a decision matching the active gate's approval id
is in history, the gate removes the pending entry, sets the status to
`analyzing` when the decision approved and to `idle` when it denied, appends a
log line recording the outcome and any reason, and resolves with the
decision's `approved` flag. -/
theorem C2_gate_decision (a : AgentState) (approvalId title : String)
    (d : ApprovalDecision)
    (hfind : a.state.analysisState.approvalHistory.find?
        (fun x => x.approvalId == approvalId) = some d) :
    checkApproval approvalId title a =
      GateCheck.resolved d.approved
        { a with state := { a.state with analysisState :=
            { a.state.analysisState with
              status := if d.approved then Status.analyzing else Status.idle
              pendingApprovals :=
                a.state.analysisState.pendingApprovals.filter (fun p => p.id != approvalId)
              analysisLog :=
                a.state.analysisState.analysisLog ++ [decisionLogLine title d] } } } := by
  simp [checkApproval, hfind]

/-- Witness for C2 at a concrete approved gate: status is restored to
`analyzing` and the gate resolves `true`. -/
theorem C2_gate_decision_witness :
    gateApproveState.state.analysisState.approvalHistory.find?
        (fun x => x.approvalId == "a1") =
      some { approvalId := "a1", approved := true, reason := some "ok" } ∧
    gateStatus (checkApproval "a1" "T" gateApproveState) = some Status.analyzing ∧
    gateFlag (checkApproval "a1" "T" gateApproveState) = some true := by
  have h := C2_gate_decision gateApproveState "a1" "T"
    { approvalId := "a1", approved := true, reason := some "ok" } (by decide)
  exact ⟨by decide, by rw [h]; rfl, by rw [h]; rfl⟩

/-- Counterexample to C2 as stated: on a denied decision the gate sets the
status to `idle`, not to `analyzing`. -/
theorem C2_counterexample :
    gateDenyState.state.analysisState.approvalHistory.find?
        (fun x => x.approvalId == "a2") =
      some { approvalId := "a2", approved := false, reason := none } ∧
    gateStatus (checkApproval "a2" "T" gateDenyState) = some Status.idle ∧
    some Status.idle ≠ some Status.analyzing := by
  exact ⟨by decide, rfl, by decide⟩

/-- Claim C3 (amended): `startAnalysis` performs no status check: invoked
while a run is `analyzing` or `awaiting_approval` (with building info and a
non-empty pair list) it is neither rejected nor ignored — it succeeds,
resetting the analysis state and beginning a fresh run in status
`analyzing`. -/
theorem C3_start_no_reentrancy_guard (a : AgentState) (ts : String)
    (hb : a.state.buildingInfo.isNone = false)
    (hp : a.state.imagePairs.isEmpty = false)
    (_hst : a.state.analysisState.status = .analyzing ∨
      a.state.analysisState.status = .awaiting_approval) :
    ∃ a', startAnalysisEntry ts a = .ok a' ∧
      a'.state.analysisState.status = .analyzing ∧
      a'.state.analysisState.detectedAnomalies = [] ∧
      a'.state.analysisState.approvalHistory = [] := by
  have hpre : startPreconditionFails a = false := by
    simp [startPreconditionFails, hb, hp]
  unfold startAnalysisEntry
  rw [hpre, if_neg Bool.false_ne_true]
  exact ⟨_, rfl, rfl, rfl, rfl⟩

/-- Witness for C3 at a concrete session already in `analyzing`. -/
theorem C3_start_no_reentrancy_guard_witness :
    (reentrantState.state.buildingInfo.isNone = false ∧
      reentrantState.state.imagePairs.isEmpty = false ∧
      reentrantState.state.analysisState.status = .analyzing) ∧
    (∃ a', startAnalysisEntry "t" reentrantState = .ok a' ∧
      a'.state.analysisState.status = .analyzing ∧
      a'.state.analysisState.detectedAnomalies = [] ∧
      a'.state.analysisState.approvalHistory = []) :=
  ⟨⟨rfl, rfl, rfl⟩,
   C3_start_no_reentrancy_guard reentrantState "t" rfl rfl (Or.inl rfl)⟩

/-- Counterexample to C3 as stated: while the session is `analyzing`, a second
start returns normally (is not rejected) and mutates the state (is not
ignored). -/
theorem C3_counterexample :
    reentrantState.state.analysisState.status = .analyzing ∧
    exceptIsOk (startAnalysisEntry "t" reentrantState) = true ∧
    stepOrKeep (startAnalysisEntry "t") reentrantState ≠ reentrantState := by
  refine ⟨rfl, rfl, ?_⟩
  intro h
  have h2 : (stepOrKeep (startAnalysisEntry "t") reentrantState).state.analysisState.approvalHistory = [] := rfl
  rw [h] at h2
  exact absurd h2 (by decide)

/-- Claim C4: with no building info or an empty image-pair list, `startAnalysis`
throws its precondition error before any state mutation, so the entire session
state is unchanged and an idle session stays idle. -/
theorem C4_start_precondition_error (a : AgentState) (ts : String)
    (h : a.state.buildingInfo = none ∨ a.state.imagePairs = []) :
    startAnalysisEntry ts a = .error "Building info and image pairs must be provided" ∧
    stepOrKeep (startAnalysisEntry ts) a = a ∧
    (a.state.analysisState.status = .idle →
      (stepOrKeep (startAnalysisEntry ts) a).state.analysisState.status = .idle) := by
  have hb : startPreconditionFails a = true := by
    rcases h with h | h <;> simp [startPreconditionFails, h]
  refine ⟨?_, ?_, ?_⟩
  · simp [startAnalysisEntry, hb]
  · simp [stepOrKeep, startAnalysisEntry, hb]
  · intro hidle
    simp [stepOrKeep, startAnalysisEntry, hb, hidle]

/-- Witness for C4 at the agent's initial state (no building info). -/
theorem C4_start_precondition_error_witness :
    (initialAgentState.state.buildingInfo = none ∨ initialAgentState.state.imagePairs = []) ∧
    (startAnalysisEntry "t" initialAgentState =
        .error "Building info and image pairs must be provided" ∧
      stepOrKeep (startAnalysisEntry "t") initialAgentState = initialAgentState ∧
      (initialAgentState.state.analysisState.status = .idle →
        (stepOrKeep (startAnalysisEntry "t") initialAgentState).state.analysisState.status =
          .idle)) :=
  ⟨Or.inl rfl, C4_start_precondition_error initialAgentState "t" (Or.inl rfl)⟩

/-- Claim C5: `provideApproval` with an unknown approval id throws a not-found
error and leaves the state untouched; with a pending id it appends exactly the
decision to the history and changes nothing else. -/
theorem C5_provideApproval_spec (d : ApprovalDecision) (a : AgentState) :
    (a.state.analysisState.pendingApprovals.find? (fun p => p.id == d.approvalId) = none →
      provideApproval d a =
          .error ("Approval " ++ d.approvalId ++ " not found or already processed") ∧
        stepOrKeep (provideApproval d) a = a) ∧
    (∀ p,
      a.state.analysisState.pendingApprovals.find? (fun p => p.id == d.approvalId) = some p →
      provideApproval d a =
        .ok { a with state := { a.state with analysisState :=
            { a.state.analysisState with
              approvalHistory := a.state.analysisState.approvalHistory ++ [d] } } }) := by
  constructor
  · intro hnone
    constructor
    · simp [provideApproval, hnone]
    · simp [stepOrKeep, provideApproval, hnone]
  · intro p hsome
    simp [provideApproval, hsome]

/-- A session holding one pending `generate_report` approval `a5` and no
decision yet. -/
def pendingOnlyState : AgentState :=
  { state :=
      { buildingInfo := some sampleBuilding
        imagePairs := [samplePair]
        analysisState :=
          { status := .awaiting_approval
            progress := 40
            currentImagePair := none
            totalImagePairs := some 1
            analysisLog := []
            detectedAnomalies := []
            finalReport := none
            energyRating := none
            error := none
            pendingApprovals :=
              [{ id := "a5", type_ := .generate_report, title := "Generate Comprehensive Report",
                 description := "d", context := [], timestamp := 0 }]
            approvalHistory := [] } }
    shouldStopAnalysis := false }

/-- Witness for C5: a decision for an absent id `zz` is rejected without any
state change, and a decision for the pending id `a5` is appended to history. -/
theorem C5_provideApproval_spec_witness :
    (provideApproval { approvalId := "zz", approved := true, reason := none } pendingOnlyState =
        .error ("Approval " ++ "zz" ++ " not found or already processed") ∧
      stepOrKeep (provideApproval { approvalId := "zz", approved := true, reason := none })
          pendingOnlyState = pendingOnlyState) ∧
    provideApproval { approvalId := "a5", approved := false, reason := some "r" }
        pendingOnlyState =
      .ok { pendingOnlyState with state := { pendingOnlyState.state with analysisState :=
          { pendingOnlyState.state.analysisState with
            approvalHistory := pendingOnlyState.state.analysisState.approvalHistory ++
              [{ approvalId := "a5", approved := false, reason := some "r" }] } } } :=
  ⟨(C5_provideApproval_spec { approvalId := "zz", approved := true, reason := none }
      pendingOnlyState).1 (by decide),
   (C5_provideApproval_spec { approvalId := "a5", approved := false, reason := some "r" }
      pendingOnlyState).2
     { id := "a5", type_ := .generate_report, title := "Generate Comprehensive Report",
       description := "d", context := [], timestamp := 0 } (by decide)⟩

/-- Claim C6: `restartAnalysis` always yields an idle analysis state with
progress 0, cleared anomalies, pending approvals and history, and a fresh
one-line log, while building info and image pairs are exactly preserved. -/
theorem C6_restart_resets (a : AgentState) :
    (restartAnalysis a).state.buildingInfo = a.state.buildingInfo ∧
    (restartAnalysis a).state.imagePairs = a.state.imagePairs ∧
    (restartAnalysis a).state.analysisState.status = .idle ∧
    (restartAnalysis a).state.analysisState.progress = 0 ∧
    (restartAnalysis a).state.analysisState.detectedAnomalies = [] ∧
    (restartAnalysis a).state.analysisState.pendingApprovals = [] ∧
    (restartAnalysis a).state.analysisState.approvalHistory = [] ∧
    (restartAnalysis a).state.analysisState.analysisLog =
      ["Analysis restarted - ready to begin"] ∧
    (restartAnalysis a).state.analysisState.finalReport = none ∧
    (restartAnalysis a).state.analysisState.energyRating = none ∧
    (restartAnalysis a).state.analysisState.error = none :=
  ⟨rfl, rfl, rfl, rfl, rfl, rfl, rfl, rfl, rfl, rfl, rfl⟩

/-- Claim C10: `stopAnalysis` only marks the status `stopped` and appends one
log line; progress, anomalies, report, rating, approvals, history, building
info and image pairs are untouched. -/
theorem C10_stop_frame (a : AgentState) :
    (stopAnalysis a).state.analysisState.status = .stopped ∧
    (stopAnalysis a).state.analysisState.analysisLog =
      a.state.analysisState.analysisLog ++ ["⏹️ Analysis stopped by user"] ∧
    (stopAnalysis a).state.analysisState.progress = a.state.analysisState.progress ∧
    (stopAnalysis a).state.analysisState.detectedAnomalies =
      a.state.analysisState.detectedAnomalies ∧
    (stopAnalysis a).state.analysisState.finalReport = a.state.analysisState.finalReport ∧
    (stopAnalysis a).state.analysisState.energyRating = a.state.analysisState.energyRating ∧
    (stopAnalysis a).state.analysisState.pendingApprovals =
      a.state.analysisState.pendingApprovals ∧
    (stopAnalysis a).state.analysisState.approvalHistory =
      a.state.analysisState.approvalHistory ∧
    (stopAnalysis a).state.analysisState.currentImagePair =
      a.state.analysisState.currentImagePair ∧
    (stopAnalysis a).state.analysisState.totalImagePairs =
      a.state.analysisState.totalImagePairs ∧
    (stopAnalysis a).state.analysisState.error = a.state.analysisState.error ∧
    (stopAnalysis a).state.buildingInfo = a.state.buildingInfo ∧
    (stopAnalysis a).state.imagePairs = a.state.imagePairs :=
  ⟨rfl, rfl, rfl, rfl, rfl, rfl, rfl, rfl, rfl, rfl, rfl, rfl, rfl⟩

/-- Claim C7 (amended): every state-mutating command of the command surface
either extends the decision history by a (possibly empty) suffix or resets it
to empty (`clearApprovals`, `restartAnalysis`, `initializeAnalysis` and the
reset performed on entry to a start); no operation removes or mutates
individual history entries in place.  (The read-only getters do not mutate
state at all.) -/
theorem C7_history_append_or_reset (c : Command) (a : AgentState) :
    (∃ t, (applyCommand c a).state.analysisState.approvalHistory =
        a.state.analysisState.approvalHistory ++ t) ∨
    (applyCommand c a).state.analysisState.approvalHistory = [] := by
  cases c with
  | initializeCmd b ps => exact Or.inr rfl
  | startCmd ts =>
      cases hb : startPreconditionFails a with
      | true =>
          exact Or.inl ⟨[], by simp [applyCommand, stepOrKeep, startAnalysisEntry, hb]⟩
      | false =>
          right
          simp [applyCommand, stepOrKeep, startAnalysisEntry, hb, updateProgress,
            resetAnalysisState]
  | startComplexCmd ts =>
      cases hb : startPreconditionFails a with
      | true =>
          exact Or.inl ⟨[], by simp [applyCommand, stepOrKeep, startComplexAnalysisEntry, hb]⟩
      | false =>
          right
          simp [applyCommand, stepOrKeep, startComplexAnalysisEntry, hb, updateProgress,
            resetAnalysisState]
  | stopCmd => exact Or.inl ⟨[], by simp [applyCommand, stopAnalysis]⟩
  | restartCmd => exact Or.inr rfl
  | provideApprovalCmd d =>
      cases hf : a.state.analysisState.pendingApprovals.find?
          (fun p => p.id == d.approvalId) with
      | none =>
          exact Or.inl ⟨[], by simp [applyCommand, stepOrKeep, provideApproval, hf]⟩
      | some p =>
          exact Or.inl ⟨[d], by simp [applyCommand, stepOrKeep, provideApproval, hf]⟩
  | clearApprovalsCmd => exact Or.inr rfl

/-- Counterexample to C7 as stated: `clearApprovals` on a session with a
recorded decision empties the history, so the old history is not a prefix of
the new one. -/
theorem C7_counterexample :
    reentrantState.state.analysisState.approvalHistory =
      [{ approvalId := "x", approved := true, reason := none }] ∧
    ¬ ∃ t, (applyCommand Command.clearApprovalsCmd reentrantState).state.analysisState.approvalHistory =
        reentrantState.state.analysisState.approvalHistory ++ t := by
  refine ⟨rfl, ?_⟩
  rintro ⟨t, ht⟩
  have hlen := congrArg List.length ht
  simp [applyCommand, clearApprovals, reentrantState] at hlen

/-- The per-step stored progress `Math.min(10 + toolCalls * 70 / maxSteps, 85)`
always lies in [0, 100]. -/
lemma stepStoredProgress_bounds (n k : ℕ) :
    0 ≤ stepStoredProgress n k ∧ stepStoredProgress n k ≤ 100 := by
  constructor
  · apply le_min
    · have h : (0 : ℚ) ≤ (k * 70 : ℚ) / (maxStepsHuman n : ℚ) := by positivity
      unfold stepBaseProgress at *
      linarith
    · norm_num
  · exact le_trans (min_le_right _ _) (by norm_num)

/-- Every value a single run event writes lies in [0, 100] when the current
progress does. -/
lemma eventWrites_bounds (n : ℕ) (cur : ℚ) (h0 : 0 ≤ cur) (h100 : cur ≤ 100)
    (e : ProgressEvent) : ∀ p ∈ eventWrites n cur e, 0 ≤ p ∧ p ≤ 100 := by
  cases e with
  | stepFinish k m =>
      intro p hp
      rw [eventWrites, List.mem_replicate] at hp
      rw [hp.2]
      exact stepStoredProgress_bounds n k
  | criticalDenied =>
      intro p hp
      simp only [eventWrites, List.mem_cons, List.mem_singleton] at hp
      rcases hp with h | h | h <;> first | (rw [h]; norm_num) | exact absurd h (by simp)
  | criticalApproved =>
      intro p hp
      simp only [eventWrites, List.mem_singleton] at hp
      rw [hp]
      exact ⟨h0, h100⟩
  | reportDenied =>
      intro p hp
      simp only [eventWrites, List.mem_singleton] at hp
      rw [hp]; norm_num
  | reportApproved =>
      intro p hp
      simp only [eventWrites, List.mem_singleton] at hp
      rw [hp]; norm_num
  | runCompleted =>
      intro p hp
      simp only [eventWrites, List.mem_singleton] at hp
      rw [hp]; norm_num

/-- A `getLastD` of a list of in-range values with an in-range fallback is in
range. -/
lemma getLastD_pred {P : ℚ → Prop} (l : List ℚ) (d : ℚ)
    (hl : ∀ p ∈ l, P p) (hd : P d) : P (l.getLastD d) := by
  cases l with
  | nil => simpa using hd
  | cons x xs =>
      rw [List.getLastD_cons]
      exact hl _ (List.getLastD_mem_cons xs x)

/-- All progress values written by a list of run events lie in [0, 100]
whenever the current progress does. -/
lemma runWrites_bounds (n : ℕ) (es : List ProgressEvent) :
    ∀ cur : ℚ, 0 ≤ cur → cur ≤ 100 →
      ∀ p ∈ runWrites n cur es, 0 ≤ p ∧ p ≤ 100 := by
  induction es with
  | nil =>
      intro cur _ _ p hp
      simp [runWrites] at hp
  | cons e es ih =>
      intro cur h0 h100 p hp
      rw [runWrites] at hp
      rcases List.mem_append.mp hp with h | h
      · exact eventWrites_bounds n cur h0 h100 e p h
      · have hlast : 0 ≤ (eventWrites n cur e).getLastD cur ∧
            (eventWrites n cur e).getLastD cur ≤ 100 :=
          getLastD_pred (eventWrites n cur e) cur (eventWrites_bounds n cur h0 h100 e)
            ⟨h0, h100⟩
        exact ih _ hlast.1 hlast.2 p h

/-- Claim C8 (amended): every progress value stored during a run lies in
[0, 100] — not by clamping in `updateProgress`, which does none, but because
every call site passes a value in range.  The stored sequence is, however,
not non-decreasing: `onStepFinish` recomputes progress from the finished
step's own tool-call count rather than cumulatively, so a later step with
fewer tool calls stores a lower value (see the counterexample). -/
theorem C8_progress_in_range (numPairs : ℕ) (events : List ProgressEvent) :
    ∀ p ∈ runProgressTrace numPairs events, 0 ≤ p ∧ p ≤ 100 := by
  intro p hp
  rw [runProgressTrace] at hp
  rcases hp with _ | ⟨_, hp⟩
  · norm_num
  rcases hp with _ | ⟨_, hp⟩
  · norm_num
  exact runWrites_bounds numPairs events 5 (by norm_num) (by norm_num) p hp

/-- Witness for C8 at a concrete trace element. -/
theorem C8_progress_in_range_witness :
    (5 : ℚ) ∈ runProgressTrace 1 [] ∧ (0 ≤ (5 : ℚ) ∧ (5 : ℚ) ≤ 100) :=
  ⟨by simp [runProgressTrace, runWrites],
   C8_progress_in_range 1 [] 5 (by simp [runProgressTrace, runWrites])⟩

/-- Counterexample to C8 as stated: with one image pair, a step with one tool
call stores 10 + 70/6 = 65/3 ≈ 21.7, and a following step with zero tool
calls stores 10 — the stored sequence decreases. -/
theorem C8_counterexample :
    runProgressTrace 1 [ProgressEvent.stepFinish 1 0, ProgressEvent.stepFinish 0 0] =
      [0, 5, 65 / 3, 10] ∧
    ¬ List.Chain' (fun x y : ℚ => x ≤ y)
        (runProgressTrace 1 [ProgressEvent.stepFinish 1 0, ProgressEvent.stepFinish 0 0]) := by
  have h : runProgressTrace 1 [ProgressEvent.stepFinish 1 0, ProgressEvent.stepFinish 0 0] =
      [0, 5, 65 / 3, 10] := by
    norm_num [runProgressTrace, runWrites, eventWrites, stepStoredProgress, stepBaseProgress,
      maxStepsHuman, List.getLastD]
  refine ⟨h, ?_⟩
  rw [h]
  intro hc
  rw [List.chain'_cons, List.chain'_cons, List.chain'_cons] at hc
  have h3 : (65 / 3 : ℚ) ≤ 10 := hc.2.2.1
  norm_num at h3

/-- Claim C9 (code bug): the `catch` arm of `parseCoordinates` returning
`[0, 0, 1, 1]` is unreachable, because `split`, `trim`, `map` and `parseFloat`
never throw in JavaScript; on unparseable text such as `"abc"` the function
returns `[NaN]`, not `[0, 0, 1, 1]`, while well-formed text parses to its
numeric coordinates. -/
theorem C9_parseCoordinates_fallback_dead :
    parseCoordinates ['a', 'b', 'c'] = [JsNum.nan] ∧
    parseCoordinates ['a', 'b', 'c'] ≠
      [JsNum.num 0, JsNum.num 0, JsNum.num 1, JsNum.num 1] ∧
    parseCoordinates ['0', '.', '1', ',', '0', '.', '2', ',', '0', '.', '3', ',', '0', '.', '4'] =
      [JsNum.num (1 / 10), JsNum.num (1 / 5), JsNum.num (3 / 10), JsNum.num (2 / 5)] := by
  refine ⟨by decide, by decide, ?_⟩
  simp +decide [parseCoordinates, splitOnComma, jsTrim, jsParseFloat, isJsWhitespace,
    digitsToNat]
  norm_num

end ThermalWise
